import Mathlib

/-!
Shallow embedding of the hivesrv HTTP/1.1 server core
(src/hive/servers/tcp/http/http11.py and src/hive/servers/tcp/server.py).

Byte strings are modelled as lists of natural numbers (byte values).
Transport writes are modelled as lists of wire-level events, one per
h11 event handed to conn.send and written to the transport.
-/

namespace Hive

/-- Byte strings (Python bytes) as lists of byte values. -/
abbrev Bytes := List Nat

/-- ASCII string literal to bytes. -/
def asciiBytes (s : String) : Bytes := s.toList.map Char.toNat

/-- CLOSE_HEADER = (b"connection", b"close") from http11.py line 38. -/
def CLOSE_HEADER : Bytes × Bytes := (asciiBytes "connection", asciiBytes "close")

/-- Wire-level events produced by conn.send and written to the transport. -/
inductive WireEvent
  | informationalResponse (status : Nat) (headers : List (Bytes × Bytes)) (reason : Bytes)
  | response (status : Nat) (headers : List (Bytes × Bytes)) (reason : Bytes)
  | data (d : Bytes)
  | endOfMessage
  deriving DecidableEq

/-- ASGI events returned by RequestResponseCycle.receive. -/
inductive ASGIReceiveEvent
  | httpDisconnect
  | httpRequest (body : Bytes) (more_body : Bool)
  deriving DecidableEq

/-- An ASGI send event: a message dictionary with a type tag and the
fields the engine reads from it (absent fields default as in the code,
via message.get). -/
structure ASGISendEvent where
  type : String
  status : Nat
  headers : List (Bytes × Bytes)
  body : Bytes
  more_body : Bool
  deriving DecidableEq

/-- An http.response.start message. -/
def mkStart (s : Nat) (h : List (Bytes × Bytes)) : ASGISendEvent :=
  { type := "http.response.start", status := s, headers := h, body := [], more_body := false }

/-- An http.response.body message. -/
def mkBody (b : Bytes) (mb : Bool) : ASGISendEvent :=
  { type := "http.response.body", status := 0, headers := [], body := b, more_body := mb }

/-- The state of one RequestResponseCycle (http11.py lines 141-169),
together with the pieces of its environment the methods read:
the flow controller write_paused flag, transport.is_closing, and
whether conn.our_state is MUST_CLOSE. -/
structure RequestResponseCycle where
  scope_method : String
  scope_headers : List (Bytes × Bytes)
  disconnected : Bool
  keep_alive : Bool
  waiting_for_100_continue : Bool
  body : Bytes
  more_body : Bool
  response_started : Bool
  response_complete : Bool
  flow_write_paused : Bool
  transport_is_closing : Bool
  conn_must_close : Bool
  deriving DecidableEq

/-- The cycle state built by RequestResponseCycle.__init__ (lines 158-169):
disconnected false, keep_alive true, empty body, more_body true, neither
response flag set. The 100-continue flag and the environment flags come
from the connection. -/
def cycle_init (m : String) (hs : List (Bytes × Bytes)) (w wp tc mc : Bool) :
    RequestResponseCycle :=
  { scope_method := m, scope_headers := hs,
    disconnected := false, keep_alive := true,
    waiting_for_100_continue := w,
    body := [], more_body := true,
    response_started := false, response_complete := false,
    flow_write_paused := wp, transport_is_closing := tc, conn_must_close := mc }

/-- Exceptions RequestResponseCycle.send can raise: the RuntimeError
(protocol misuse) raises of lines 232, 269, 294, and the KeyError from
the STATUS_PHRASES dictionary lookup at line 258. -/
inductive SendError
  | protocolMisuse (msg_type : String)
  | keyError (status : Nat)
  deriving DecidableEq

/-- Result of one send call: the cycle state afterwards (mutations persist
even when an exception escapes), the transport writes made, the escaping
exception if any, whether transport.close was called, and whether
on_response was invoked. -/
structure SendOutcome where
  cycle : RequestResponseCycle
  writes : List WireEvent
  error : Option SendError
  transport_closed : Bool
  on_response_called : Bool
  deriving DecidableEq

/-- STATUS_PHRASES (http11.py lines 101-103) is a dictionary keyed by
range(100, 600); the phrase text comes from the Python http module,
taken here as a parameter. Lookup outside the key range is a KeyError,
modelled as none. -/
def STATUS_PHRASES (phrase_of : Nat → Bytes) (status_code : Nat) : Option Bytes :=
  if 100 ≤ status_code ∧ status_code < 600 then some (phrase_of status_code) else none

/-- The tail of send (http11.py lines 296-301): once response_complete,
close the transport when conn.our_state is MUST_CLOSE or keep_alive is
false, and invoke on_response. -/
def finish_send (c : RequestResponseCycle) (writes : List WireEvent) : SendOutcome :=
  if c.response_complete then
    { cycle := c, writes := writes, error := none,
      transport_closed := c.conn_must_close || !c.keep_alive,
      on_response_called := true }
  else
    { cycle := c, writes := writes, error := none,
      transport_closed := false, on_response_called := false }

/-- RequestResponseCycle.send (http11.py lines 219-301). The drain on a
paused flow (lines 222-223) suspends but changes no cycle state, so it
is not represented. If disconnected, return silently. Before a response
has started only http.response.start is accepted: the started and
100-continue flags are set, Connection: close is appended when the
request carried it and the handler did not, the status phrase is looked
up (KeyError escapes with the flag mutations kept, nothing written),
and the response head is written. While a response is open only
http.response.body is accepted: for a HEAD request the data written is
empty, and when more_body is false the cycle completes and
EndOfMessage is written. Any message after completion raises. -/
def send (phrase_of : Nat → Bytes) (self : RequestResponseCycle)
    (message : ASGISendEvent) : SendOutcome :=
  if self.disconnected then
    { cycle := self, writes := [], error := none,
      transport_closed := false, on_response_called := false }
  else if self.response_started = false then
    if message.type = "http.response.start" then
      let started : RequestResponseCycle :=
        { self with response_started := true, waiting_for_100_continue := false }
      let headers :=
        if CLOSE_HEADER ∈ started.scope_headers ∧ CLOSE_HEADER ∉ message.headers then
          message.headers ++ [CLOSE_HEADER]
        else
          message.headers
      match STATUS_PHRASES phrase_of message.status with
      | none =>
          { cycle := started, writes := [],
            error := some (SendError.keyError message.status),
            transport_closed := false, on_response_called := false }
      | some reason =>
          finish_send started [WireEvent.response message.status headers reason]
    else
      { cycle := self, writes := [],
        error := some (SendError.protocolMisuse message.type),
        transport_closed := false, on_response_called := false }
  else if self.response_complete = false then
    if message.type = "http.response.body" then
      let d : Bytes := if self.scope_method = "HEAD" then [] else message.body
      if message.more_body then
        finish_send self [WireEvent.data d]
      else
        finish_send { self with response_complete := true }
          [WireEvent.data d, WireEvent.endOfMessage]
    else
      { cycle := self, writes := [],
        error := some (SendError.protocolMisuse message.type),
        transport_closed := false, on_response_called := false }
  else
    { cycle := self, writes := [],
      error := some (SendError.protocolMisuse message.type),
      transport_closed := false, on_response_called := false }

/-- Result of one receive call. -/
structure ReceiveOutcome where
  cycle : RequestResponseCycle
  writes : List WireEvent
  event : ASGIReceiveEvent
  deriving DecidableEq

/-- RequestResponseCycle.receive (http11.py lines 303-328). If the client
is waiting for 100-continue and the transport is open, write the
informational response and clear the flag. The wait on message_event
(lines 312-315) suspends but the decision below is a function of the
state at wake time. Return http.disconnect when disconnected or
response_complete, else http.request carrying the buffered body, which
is then cleared. -/
def receive (self : RequestResponseCycle) : ReceiveOutcome :=
  let step1 : RequestResponseCycle × List WireEvent :=
    if self.waiting_for_100_continue && !self.transport_is_closing then
      ({ self with waiting_for_100_continue := false },
        [WireEvent.informationalResponse 100 [] (asciiBytes "Continue")])
    else
      (self, [])
  if step1.1.disconnected || step1.1.response_complete then
    { cycle := step1.1, writes := step1.2, event := ASGIReceiveEvent.httpDisconnect }
  else
    { cycle := { step1.1 with body := [] }, writes := step1.2,
      event := ASGIReceiveEvent.httpRequest step1.1.body step1.1.more_body }

/-- How the wrapped handler invocation finished. CancelledError is a
BaseException in Python, so a cancelled task is caught by the
except BaseException clause of run_asgi just like an ordinary raise. -/
inductive AppOutcome
  | returned_none
  | returned_value
  | raised_exception
  | cancelled
  deriving DecidableEq

/-- What run_asgi does after the handler finishes. -/
inductive AsgiFinishAction
  | send_500
  | close_transport
  | nothing
  deriving DecidableEq

/-- The dispatch of RequestResponseCycle.run_asgi (http11.py lines
172-198): except BaseException (which catches cancellation) sends the
canned 500 when no response started, else closes; a non-None return
closes; a None return with no response started and no disconnect sends
the 500; incomplete and not disconnected closes; else nothing. -/
def run_asgi_finish (outcome : AppOutcome)
    (response_started disconnected response_complete : Bool) : AsgiFinishAction :=
  match outcome with
  | AppOutcome.raised_exception =>
      if response_started = false then AsgiFinishAction.send_500
      else AsgiFinishAction.close_transport
  | AppOutcome.cancelled =>
      if response_started = false then AsgiFinishAction.send_500
      else AsgiFinishAction.close_transport
  | AppOutcome.returned_value => AsgiFinishAction.close_transport
  | AppOutcome.returned_none =>
      if response_started = false && disconnected = false then AsgiFinishAction.send_500
      else if response_complete = false && disconnected = false then
        AsgiFinishAction.close_transport
      else AsgiFinishAction.nothing

/-- The two messages of send_500_response (http11.py lines 200-216). -/
def send_500_messages : List ASGISendEvent :=
  [mkStart 500 [(asciiBytes "content-type", asciiBytes "text/plain; charset=utf-8"),
                (asciiBytes "connection", asciiBytes "close")],
   { type := "http.response.body", status := 0, headers := [],
     body := asciiBytes "Internal Server Error", more_body := false }]

/-! ## Request parsing (HTTP11Protocol.handle_events, Request branch) -/

/-- bytes.lower on one byte: ASCII uppercase letters map down. -/
def byte_lower (b : Nat) : Nat := if 65 ≤ b ∧ b ≤ 90 then b + 32 else b

/-- bytes.lower. -/
def bytes_lower (bs : Bytes) : Bytes := bs.map byte_lower

/-- bytes.partition(sep) for a one-byte separator: the part before the
first separator, whether a separator was found, and the part after it. -/
def bpartition (sep : Nat) : Bytes → Bytes × Bool × Bytes
  | [] => ([], false, [])
  | b :: rest =>
    if b = sep then ([], true, rest)
    else
      let r := bpartition sep rest
      (b :: r.1, r.2.1, r.2.2)

/-- Value of one hex digit, if it is one. -/
def hex_digit_val (c : Nat) : Option Nat :=
  if 48 ≤ c ∧ c ≤ 57 then some (c - 48)
  else if 65 ≤ c ∧ c ≤ 70 then some (c - 55)
  else if 97 ≤ c ∧ c ≤ 102 then some (c - 87)
  else none

/-- urllib.parse.unquote at the byte level: each %XX with two hex digits
becomes the byte it denotes; malformed escapes are kept verbatim.
Byte 37 is the percent sign. -/
def percent_decode : Bytes → Bytes
  | [] => []
  | 37 :: a :: b :: rest =>
    match hex_digit_val a, hex_digit_val b with
    | some hi, some lo => (16 * hi + lo) :: percent_decode rest
    | some _, none => 37 :: percent_decode (a :: b :: rest)
    | none, _ => 37 :: percent_decode (a :: b :: rest)
  | c :: rest => c :: percent_decode rest

/-- The h11.Request event fields the engine reads. -/
structure H11Request where
  method : String
  target : Bytes
  http_version : String
  headers : List (Bytes × Bytes)
  deriving DecidableEq

/-- The scope fields built from a request (http11.py lines 440-460). -/
structure HTTPScope where
  http_version : String
  method : String
  root_path : String
  path : Bytes
  raw_path : Bytes
  query_string : Bytes
  headers : List (Bytes × Bytes)
  deriving DecidableEq

/-- Scope construction of the Request branch of handle_events (lines
440-460): header names lowercased, target partitioned on the first
byte 63 (the question mark) into raw_path and query_string, path the
percent-decoding of raw_path. -/
def build_scope (root_path : String) (event : H11Request) : HTTPScope :=
  let headers := event.headers.map (fun kv => (bytes_lower kv.1, kv.2))
  let r := bpartition 63 event.target
  { http_version := event.http_version, method := event.method,
    root_path := root_path,
    path := percent_decode r.1, raw_path := r.1, query_string := r.2.2,
    headers := headers }

/-! ## Upgrade handling (HTTP11Protocol.handle_upgrade) -/

/-- The slice of HTTP11Protocol state handle_upgrade reads. The
assignment self.ws_protocol_class = config.ws_protocol_class in
__init__ (line 344) is commented out, so the attribute can be absent:
none models the absent attribute (reading it raises AttributeError),
some none models an attribute set to None, some (some u) a configured
class. -/
structure HTTP11ProtocolUpgradeState where
  headers : List (Bytes × Bytes)
  ws_protocol_class : Option (Option Unit)
  deriving DecidableEq

/-- The value of the ws_protocol_class attribute after __init__
(http11.py line 344 is commented out, so the attribute is never
assigned). -/
def init_ws_protocol_class : Option (Option Unit) := none

/-- Outcome of handle_upgrade. -/
inductive UpgradeOutcome
  | send_400 (msg : String)
  | attribute_error
  | upgraded
  deriving DecidableEq

/-- The loop of handle_upgrade lines 514-517: the lowered value of the
last header named upgrade, or none. -/
def find_upgrade_value (headers : List (Bytes × Bytes)) : Option Bytes :=
  headers.foldl
    (fun acc kv => if kv.1 = asciiBytes "upgrade" then some (bytes_lower kv.2) else acc)
    none

/-- HTTP11Protocol.handle_upgrade (lines 513-541). The condition at line
519 short-circuits: when the upgrade value is not websocket the 400 is
sent without touching ws_protocol_class; otherwise the attribute is
read, which raises AttributeError when it was never assigned, and a
None value also yields the 400. -/
def handle_upgrade (self : HTTP11ProtocolUpgradeState) : UpgradeOutcome :=
  let upgrade_value := find_upgrade_value self.headers
  if upgrade_value ≠ some (asciiBytes "websocket") then
    UpgradeOutcome.send_400 "Unsupported upgrade request."
  else
    match self.ws_protocol_class with
    | none => UpgradeOutcome.attribute_error
    | some none => UpgradeOutcome.send_400 "Unsupported upgrade request."
    | some (some _) => UpgradeOutcome.upgraded

/-- bytes.split for a one-byte separator (Python semantics: an empty
input yields one empty piece). -/
def bsplit (sep : Nat) : Bytes → List Bytes
  | [] => [[]]
  | b :: rest =>
    let r := bsplit sep rest
    if b = sep then [] :: r
    else
      match r with
      | [] => [[b]]
      | h :: t => (b :: h) :: t

/-- One byte of ASCII whitespace, as stripped by bytes.strip. -/
def is_ascii_space (b : Nat) : Bool :=
  b = 32 || b = 9 || b = 10 || b = 13 || b = 11 || b = 12

/-- bytes.strip. -/
def bstrip (bs : Bytes) : Bytes :=
  ((bs.dropWhile is_ascii_space).reverse.dropWhile is_ascii_space).reverse

/-- token.lower().strip() over a comma-separated Connection header value
(handle_events line 464). Byte 44 is the comma. -/
def connection_tokens (value : Bytes) : List Bytes :=
  (bsplit 44 value).map (fun t => bstrip (bytes_lower t))

/-- Whether the Request branch of handle_events invokes handle_upgrade
(lines 462-467): some header named connection has a token upgrade. -/
def request_triggers_upgrade (headers : List (Bytes × Bytes)) : Bool :=
  headers.any (fun kv =>
    kv.1 = asciiBytes "connection" &&
      (connection_tokens kv.2).contains (asciiBytes "upgrade"))

/-! ## Shutdown cleanup (TCPServer._cleanup, server.py lines 91-107) -/

/-- A Python value as evaluated for truthiness: a real bool, or a bound
method object (always truthy). -/
inductive PyValue
  | pybool (b : Bool)
  | bound_method
  deriving DecidableEq

/-- Python truthiness. -/
def py_truthy : PyValue → Bool
  | PyValue.pybool b => b
  | PyValue.bound_method => true

/-- The guard of server.py line 105 as written:
connections and not forceful.is_set, where is_set is an attribute
access on the Event object, not a call. -/
def cleanup_guard (connections_nonempty : Bool) (is_set_attr : PyValue) : Bool :=
  connections_nonempty && ! (py_truthy is_set_attr)

/-- Whether _cleanup enters the final wait loop, as a function of the
live connection set and the forceful latch. The attribute access at
line 105 yields the bound method regardless of the latch value. -/
def cleanup_enters_wait_loop (connections_nonempty forceful_set : Bool) : Bool :=
  cleanup_guard connections_nonempty PyValue.bound_method

/-- The condition of the inner while loop at line 106, which does call
is_set: this is what the guard was meant to evaluate. -/
def cleanup_wait_condition (connections_nonempty forceful_set : Bool) : Bool :=
  connections_nonempty && !forceful_set

/-! ## Cycle step relation (for the reachability invariant) -/

/-- One transition of a cycle state: a receive or send by the handler,
or an engine-side event: connection_lost marks disconnected (lines
381-385), a Data event appends to the body (line 498), EndOfMessage
clears more_body (line 510), server shutdown clears keep_alive (line
590), and the environment flags may move freely. -/
inductive CycleStep : RequestResponseCycle → RequestResponseCycle → Prop
  | handler_recv (c : RequestResponseCycle) : CycleStep c (receive c).cycle
  | handler_send (c : RequestResponseCycle) (phrase_of : Nat → Bytes)
      (message : ASGISendEvent) : CycleStep c (send phrase_of c message).cycle
  | connection_lost (c : RequestResponseCycle) :
      CycleStep c { c with disconnected := true }
  | data_received (c : RequestResponseCycle) (d : Bytes) :
      CycleStep c { c with body := c.body ++ d }
  | end_of_message (c : RequestResponseCycle) :
      CycleStep c { c with more_body := false }
  | server_shutdown (c : RequestResponseCycle) :
      CycleStep c { c with keep_alive := false }
  | env (c : RequestResponseCycle) (wp tc mc : Bool) :
      CycleStep c { c with flow_write_paused := wp, transport_is_closing := tc,
                           conn_must_close := mc }

/-- Reachability of a cycle state by a sequence of steps. -/
inductive CycleReachable : RequestResponseCycle → RequestResponseCycle → Prop
  | refl (c : RequestResponseCycle) : CycleReachable c c
  | tail {a b c : RequestResponseCycle} :
      CycleReachable a b → CycleStep b c → CycleReachable a c

/-- The invariant of claim C3: a complete response was started. -/
def cycle_inv (c : RequestResponseCycle) : Prop :=
  c.response_complete = true → c.response_started = true

/-! ## Helper lemmas -/

theorem receive_cycle_flags (c : RequestResponseCycle) :
    (receive c).cycle.response_started = c.response_started ∧
    (receive c).cycle.response_complete = c.response_complete := by
  unfold receive
  cases hw : c.waiting_for_100_continue && !c.transport_is_closing <;>
    simp [hw] <;> split <;> simp

theorem receive_cycle_inv (c : RequestResponseCycle) (h : cycle_inv c) :
    cycle_inv (receive c).cycle := by
  unfold cycle_inv at h ⊢
  rw [(receive_cycle_flags c).1, (receive_cycle_flags c).2]
  exact h

theorem send_cycle_inv (p : Nat → Bytes) (c : RequestResponseCycle)
    (m : ASGISendEvent) (h : cycle_inv c) : cycle_inv ((send p c m).cycle) := by
  unfold cycle_inv at h ⊢
  unfold send finish_send
  repeat' split
  all_goals (try exact h)
  all_goals simp_all

theorem step_inv {a b : RequestResponseCycle} (s : CycleStep a b)
    (h : cycle_inv a) : cycle_inv b := by
  cases s with
  | handler_recv => exact receive_cycle_inv a h
  | handler_send p m => exact send_cycle_inv p a m h
  | connection_lost => exact h
  | data_received d => exact h
  | end_of_message => exact h
  | server_shutdown => exact h
  | env wp tc mc => exact h

theorem reachable_inv {a b : RequestResponseCycle}
    (r : CycleReachable a b) (h : cycle_inv a) : cycle_inv b := by
  induction r with
  | refl => exact h
  | tail _ s ih => exact step_inv s ih

theorem cycle_init_inv (m : String) (hs : List (Bytes × Bytes)) (w wp tc mc : Bool) :
    cycle_inv (cycle_init m hs w wp tc mc) := by
  intro h
  simp [cycle_init] at h

theorem byte_lower_not_upper (b : Nat) :
    ¬ (65 ≤ byte_lower b ∧ byte_lower b ≤ 90) := by
  unfold byte_lower
  split <;> omega

theorem bpartition_before (sep : Nat) (l : Bytes) : sep ∉ (bpartition sep l).1 := by
  induction l with
  | nil => simp [bpartition]
  | cons b rest ih =>
    by_cases h : b = sep
    · simp [bpartition, h]
    · simp [bpartition, h]
      exact ⟨fun hh => h hh.symm, ih⟩

theorem bpartition_recover (sep : Nat) (l : Bytes) :
    (bpartition sep l).2.1 = true →
      l = (bpartition sep l).1 ++ sep :: (bpartition sep l).2.2 := by
  induction l with
  | nil => simp [bpartition]
  | cons b rest ih =>
    by_cases h : b = sep
    · subst h
      simp [bpartition]
    · intro hf
      simp only [bpartition, if_neg h] at hf ⊢
      simp only [List.cons_append, List.cons.injEq, true_and]
      exact ih hf

theorem bpartition_no_sep (sep : Nat) (l : Bytes) :
    (bpartition sep l).2.1 = false →
      (bpartition sep l).1 = l ∧ (bpartition sep l).2.2 = [] := by
  induction l with
  | nil => simp [bpartition]
  | cons b rest ih =>
    by_cases h : b = sep
    · subst h
      simp [bpartition]
    · intro hf
      simp only [bpartition, if_neg h] at hf ⊢
      have h2 := ih hf
      simp [h2.1, h2.2]

/-! ## Claim theorems -/

/-- C1: each call to receive returns exactly one of two events: the
http.disconnect event when the disconnected flag or the
response_complete flag is set, and otherwise the http.request event
carrying the buffered body bytes and the more_body flag, after which
the body buffer of the cycle is cleared to empty. -/
theorem receive_returns_disconnect_or_request (c : RequestResponseCycle) :
    if c.disconnected || c.response_complete then
      (receive c).event = ASGIReceiveEvent.httpDisconnect
    else
      (receive c).event = ASGIReceiveEvent.httpRequest c.body c.more_body ∧
        (receive c).cycle.body = [] := by
  unfold receive
  cases hd : c.disconnected <;> cases hc : c.response_complete <;>
    cases hw : c.waiting_for_100_continue && !c.transport_is_closing <;>
      simp [hd, hc, hw]

/-- C2: for a reachable cycle state, when not disconnected a send of any
message whose type is not http.response.start before the response has
started raises the protocol-misuse RuntimeError, and any send after the
response is complete raises it as well; when the disconnected flag is
set, send returns silently without error, writes, or state change, for
every message. -/
theorem send_misuse_and_disconnect (m : String) (hs : List (Bytes × Bytes))
    (w wp tc mc : Bool) (p : Nat → Bytes) (e : ASGISendEvent)
    (c : RequestResponseCycle)
    (hr : CycleReachable (cycle_init m hs w wp tc mc) c) :
    (c.disconnected = false → c.response_started = false →
       e.type ≠ "http.response.start" →
       (send p c e).error = some (SendError.protocolMisuse e.type)) ∧
    (c.disconnected = false → c.response_complete = true →
       (send p c e).error = some (SendError.protocolMisuse e.type)) ∧
    (c.disconnected = true →
       send p c e =
         { cycle := c, writes := [], error := none,
           transport_closed := false, on_response_called := false }) := by
  refine ⟨?_, ?_, ?_⟩
  · intro hd hst ht
    simp [send, hd, hst, ht]
  · intro hd hc
    have hst : c.response_started = true :=
      reachable_inv hr (cycle_init_inv m hs w wp tc mc) hc
    simp [send, hd, hst, hc]
  · intro hd
    simp [send, hd]

/-- Witness for C2: at the freshly initialized cycle, which is reachable
by the empty step sequence, a body message sent before the response has
started raises the protocol-misuse error. -/
theorem send_misuse_witness :
    (cycle_init "GET" [] false false false false).disconnected = false ∧
    (cycle_init "GET" [] false false false false).response_started = false ∧
    (send (fun _ => []) (cycle_init "GET" [] false false false false)
        (mkBody [] false)).error =
      some (SendError.protocolMisuse "http.response.body") := by
  refine ⟨rfl, rfl, ?_⟩
  exact (send_misuse_and_disconnect "GET" [] false false false false (fun _ => [])
    (mkBody [] false) (cycle_init "GET" [] false false false false)
    (CycleReachable.refl _)).1 rfl rfl (by decide)

/-- C3: along every sequence of receive, send, and engine-side steps
from the initial cycle state, the implication response_complete implies
response_started is invariant: no reachable cycle state has
response_complete true with response_started false. -/
theorem reachable_complete_implies_started (m : String)
    (hs : List (Bytes × Bytes)) (w wp tc mc : Bool) (c : RequestResponseCycle)
    (hr : CycleReachable (cycle_init m hs w wp tc mc) c)
    (hc : c.response_complete = true) : c.response_started = true :=
  reachable_inv hr (cycle_init_inv m hs w wp tc mc) hc

/-- A phrase table for witnesses. -/
def witness_phrase : Nat → Bytes := fun _ => []

/-- The cycle state after a start send and a final body send from the
initial state. -/
def witness_complete_cycle : RequestResponseCycle :=
  (send witness_phrase
    ((send witness_phrase (cycle_init "GET" [] false false false false)
        (mkStart 200 [])).cycle)
    (mkBody (asciiBytes "hi") false)).cycle

/-- Witness for C3: a concrete reachable state with response_complete
set indeed has response_started set. -/
theorem reachable_complete_witness :
    witness_complete_cycle.response_complete = true ∧
    witness_complete_cycle.response_started = true := by
  have hr : CycleReachable (cycle_init "GET" [] false false false false)
      witness_complete_cycle :=
    CycleReachable.tail
      (CycleReachable.tail (CycleReachable.refl _)
        (CycleStep.handler_send _ witness_phrase (mkStart 200 [])))
      (CycleStep.handler_send _ witness_phrase (mkBody (asciiBytes "hi") false))
  have hc : witness_complete_cycle.response_complete = true := by decide
  exact ⟨hc,
    reachable_complete_implies_started "GET" [] false false false false
      witness_complete_cycle hr hc⟩

/-- Counterexample to C4: when the task is cancelled during handler
execution and no response has started, run_asgi does send the canned
500 response, because the except BaseException clause catches the
cancellation like any other raise. -/
theorem cancelled_sends_500_counterexample :
    run_asgi_finish AppOutcome.cancelled false false false =
      AsgiFinishAction.send_500 := rfl

/-- C4 (amended): cancellation during handler execution takes exactly
the path of an ordinary handler exception: with no response started the
canned 500 is sent, otherwise the transport is closed. -/
theorem cancelled_same_as_exception (started d rc : Bool) :
    run_asgi_finish AppOutcome.cancelled started d rc =
      run_asgi_finish AppOutcome.raised_exception started d rc ∧
    run_asgi_finish AppOutcome.cancelled false d rc = AsgiFinishAction.send_500 ∧
    run_asgi_finish AppOutcome.cancelled true d rc =
      AsgiFinishAction.close_transport := by
  cases started <;> simp [run_asgi_finish]

/-- C5: for every parsed request target, raw_path holds no question
mark byte; when the target holds one, it is raw_path, then the
question mark, then query_string, and when it holds none, raw_path is
the whole target and query_string is empty; scope.path is the
percent-decoding of raw_path; and every header name in scope.headers
holds no ASCII uppercase byte. -/
theorem scope_parsing (root : String) (e : H11Request) :
    63 ∉ (build_scope root e).raw_path ∧
    ((bpartition 63 e.target).2.1 = true →
       e.target =
         (build_scope root e).raw_path ++ 63 :: (build_scope root e).query_string) ∧
    ((bpartition 63 e.target).2.1 = false →
       (build_scope root e).raw_path = e.target ∧
         (build_scope root e).query_string = []) ∧
    (build_scope root e).path = percent_decode (build_scope root e).raw_path ∧
    (∀ kv ∈ (build_scope root e).headers, ∀ b ∈ kv.1, ¬ (65 ≤ b ∧ b ≤ 90)) := by
  refine ⟨?_, ?_, ?_, ?_, ?_⟩
  · simpa [build_scope] using bpartition_before 63 e.target
  · intro hf
    simpa [build_scope] using bpartition_recover 63 e.target hf
  · intro hf
    simpa [build_scope] using bpartition_no_sep 63 e.target hf
  · simp [build_scope]
  · intro kv hkv b hb
    simp only [build_scope, List.mem_map] at hkv
    obtain ⟨orig, _, rfl⟩ := hkv
    simp only [bytes_lower, List.mem_map] at hb
    obtain ⟨ob, _, rfl⟩ := hb
    exact byte_lower_not_upper ob

/-- A concrete request for the parsing witness. -/
def witness_request : H11Request :=
  { method := "GET", target := asciiBytes "/a%20b?x=1", http_version := "1.1",
    headers := [(asciiBytes "Host", asciiBytes "x")] }

/-- Witness for C5 at a concrete request with a query string and an
uppercase header name. -/
theorem scope_parsing_witness :
    (bpartition 63 witness_request.target).2.1 = true ∧
    witness_request.target =
      (build_scope "" witness_request).raw_path ++
        63 :: (build_scope "" witness_request).query_string ∧
    (build_scope "" witness_request).path =
      percent_decode (build_scope "" witness_request).raw_path := by
  refine ⟨by decide, ?_, (scope_parsing "" witness_request).2.2.2.1⟩
  exact (scope_parsing "" witness_request).2.1 (by decide)

/-- C6: for a cycle whose request method is HEAD, every
http.response.body send writes an empty data frame to the transport
regardless of the supplied body bytes, followed by EndOfMessage when
more_body is false; while a http.response.start send writes exactly
what a cycle differing only in its method would write, with the same
error behaviour. -/
theorem head_suppresses_body (p : Nat → Bytes) (meth : String) :
    (∀ (c : RequestResponseCycle) (b : Bytes) (mb : Bool),
       c.scope_method = "HEAD" → c.disconnected = false →
       c.response_started = true → c.response_complete = false →
       (send p c (mkBody b mb)).writes =
         WireEvent.data [] ::
           (if mb = true then [] else [WireEvent.endOfMessage])) ∧
    (∀ (c : RequestResponseCycle) (s : Nat) (h : List (Bytes × Bytes)),
       (send p c (mkStart s h)).writes =
         (send p { c with scope_method := meth } (mkStart s h)).writes ∧
       (send p c (mkStart s h)).error =
         (send p { c with scope_method := meth } (mkStart s h)).error) := by
  constructor
  · intro c b mb hm hd hst hc
    cases mb <;> simp [send, mkBody, hm, hd, hst, hc, finish_send]
  · intro c s h
    cases hd : c.disconnected <;> cases hst : c.response_started <;>
      cases hc : c.response_complete <;>
        cases hph : STATUS_PHRASES p s <;>
          simp [send, mkStart, finish_send, hd, hst, hc, hph]

/-- A concrete HEAD cycle with the response started, for the C6
witness. -/
def witness_head_cycle : RequestResponseCycle :=
  { cycle_init "HEAD" [] false false false false with response_started := true }

/-- Witness for C6: a HEAD cycle writes an empty data frame and
EndOfMessage for a final body event carrying nonempty bytes. -/
theorem head_suppresses_body_witness :
    witness_head_cycle.scope_method = "HEAD" ∧
    witness_head_cycle.disconnected = false ∧
    witness_head_cycle.response_started = true ∧
    witness_head_cycle.response_complete = false ∧
    (send witness_phrase witness_head_cycle
        (mkBody (asciiBytes "hi") false)).writes =
      [WireEvent.data [], WireEvent.endOfMessage] := by
  refine ⟨rfl, rfl, rfl, rfl, ?_⟩
  have h := (head_suppresses_body witness_phrase "GET").1 witness_head_cycle
    (asciiBytes "hi") false rfl rfl rfl rfl
  simpa using h

/-- C7: on the first http.response.start send of a cycle that is not
disconnected, when the request headers hold the pair
(connection, close) and the handler headers do not, the written headers
are the handler headers with that pair appended once (so it occurs
exactly once); when the handler already supplied the pair, and for
requests without the pair, the written headers are exactly the handler
headers. -/
theorem close_header_appended (p : Nat → Bytes) (c : RequestResponseCycle)
    (s : Nat) (hdrs : List (Bytes × Bytes))
    (hd : c.disconnected = false) (hst : c.response_started = false)
    (h1 : 100 ≤ s) (h2 : s < 600) :
    (CLOSE_HEADER ∈ c.scope_headers → CLOSE_HEADER ∉ hdrs →
       (send p c (mkStart s hdrs)).writes =
         [WireEvent.response s (hdrs ++ [CLOSE_HEADER]) (p s)] ∧
       List.count CLOSE_HEADER (hdrs ++ [CLOSE_HEADER]) = 1) ∧
    (CLOSE_HEADER ∈ c.scope_headers → CLOSE_HEADER ∈ hdrs →
       (send p c (mkStart s hdrs)).writes =
         [WireEvent.response s hdrs (p s)]) ∧
    (CLOSE_HEADER ∉ c.scope_headers →
       (send p c (mkStart s hdrs)).writes =
         [WireEvent.response s hdrs (p s)]) := by
  have hph : STATUS_PHRASES p s = some (p s) := by
    simp [STATUS_PHRASES, h1, h2]
  refine ⟨?_, ?_, ?_⟩
  · intro hin hout
    constructor
    · simp only [send, mkStart, finish_send, hd, hst, hph, hin, hout]
      simp [hin, hout]
      split <;> rfl
    · rw [List.count_append]
      rw [List.count_eq_zero_of_not_mem hout]
      simp
  · intro hin hin2
    simp [send, mkStart, finish_send, hd, hst, hph, hin, hin2]
    split <;> rfl
  · intro hout
    simp [send, mkStart, finish_send, hd, hst, hph, hout]
    split <;> rfl

/-- A concrete cycle whose request carried Connection: close, for the
C7 witness. -/
def witness_close_cycle : RequestResponseCycle :=
  cycle_init "GET" [CLOSE_HEADER] false false false false

/-- Witness for C7: with the request pair present and absent from the
handler headers, the written headers are the handler headers with the
close pair appended exactly once. -/
theorem close_header_appended_witness :
    witness_close_cycle.disconnected = false ∧
    witness_close_cycle.response_started = false ∧
    CLOSE_HEADER ∈ witness_close_cycle.scope_headers ∧
    CLOSE_HEADER ∉ ([] : List (Bytes × Bytes)) ∧
    (send witness_phrase witness_close_cycle (mkStart 200 [])).writes =
      [WireEvent.response 200 [CLOSE_HEADER] (witness_phrase 200)] ∧
    List.count CLOSE_HEADER ([] ++ [CLOSE_HEADER]) = 1 := by
  have h := (close_header_appended witness_phrase witness_close_cycle 200 []
    rfl rfl (by decide) (by decide)).1 (by decide) (by decide)
  exact ⟨rfl, rfl, by decide, by decide, by simpa using h.1, h.2⟩

/-- C10: for a cycle with no response started and not disconnected, a
http.response.start send with a status inside 100..599 finds a phrase
in the STATUS_PHRASES table and raises no error, while any status
outside that range fails the table lookup with a KeyError, not the
protocol-misuse RuntimeError, before anything is written to the
transport. -/
theorem status_lookup_range (p : Nat → Bytes) (c : RequestResponseCycle)
    (s : Nat) (hdrs : List (Bytes × Bytes))
    (hd : c.disconnected = false) (hst : c.response_started = false) :
    (100 ≤ s ∧ s ≤ 599 →
       STATUS_PHRASES p s = some (p s) ∧
       (send p c (mkStart s hdrs)).error = none) ∧
    (¬ (100 ≤ s ∧ s ≤ 599) →
       (send p c (mkStart s hdrs)).error = some (SendError.keyError s) ∧
       (send p c (mkStart s hdrs)).writes = []) := by
  constructor
  · intro hin
    have hph : STATUS_PHRASES p s = some (p s) := by
      simp only [STATUS_PHRASES, if_pos (by omega : 100 ≤ s ∧ s < 600)]
    refine ⟨hph, ?_⟩
    simp [send, mkStart, finish_send, hd, hst, hph]
    split <;> rfl
  · intro hout
    have hph : STATUS_PHRASES p s = none := by
      simp only [STATUS_PHRASES, if_neg (by omega : ¬ (100 ≤ s ∧ s < 600))]
    constructor <;> simp [send, mkStart, hd, hst, hph]

/-- Witness for C10: status 200 succeeds and status 600 fails with the
KeyError and writes nothing, at a concrete fresh cycle. -/
theorem status_lookup_range_witness :
    (cycle_init "GET" [] false false false false).disconnected = false ∧
    (cycle_init "GET" [] false false false false).response_started = false ∧
    (send witness_phrase (cycle_init "GET" [] false false false false)
        (mkStart 200 [])).error = none ∧
    (send witness_phrase (cycle_init "GET" [] false false false false)
        (mkStart 600 [])).error = some (SendError.keyError 600) ∧
    (send witness_phrase (cycle_init "GET" [] false false false false)
        (mkStart 600 [])).writes = [] := by
  refine ⟨rfl, rfl, ?_, ?_, ?_⟩
  · exact ((status_lookup_range witness_phrase _ 200 [] rfl rfl).1
      (by decide)).2
  · exact ((status_lookup_range witness_phrase _ 600 [] rfl rfl).2
      (by decide)).1
  · exact ((status_lookup_range witness_phrase _ 600 [] rfl rfl).2
      (by decide)).2

/-- C8: evaluating the code at the failing input. This request carries
Connection: Upgrade and Upgrade: websocket, so handle_events invokes
handle_upgrade; since ws_protocol_class was never assigned in __init__,
the access at the line-519 condition raises AttributeError instead of
producing the 400 rejection. A non-websocket token, by contrast, is
rejected with the 400. -/
theorem upgrade_websocket_attribute_error :
    request_triggers_upgrade
      [(asciiBytes "connection", asciiBytes "Upgrade"),
       (asciiBytes "upgrade", asciiBytes "websocket")] = true ∧
    handle_upgrade
      { headers := [(asciiBytes "connection", asciiBytes "Upgrade"),
                    (asciiBytes "upgrade", asciiBytes "websocket")],
        ws_protocol_class := init_ws_protocol_class } =
      UpgradeOutcome.attribute_error ∧
    handle_upgrade
      { headers := [(asciiBytes "connection", asciiBytes "Upgrade"),
                    (asciiBytes "upgrade", asciiBytes "h2c")],
        ws_protocol_class := init_ws_protocol_class } =
      UpgradeOutcome.send_400 "Unsupported upgrade request." := by
  refine ⟨by decide, by decide, ?_⟩
  simp [handle_upgrade, init_ws_protocol_class]
  decide

/-- C9: evaluating the code at the failing input. With live connections
remaining and the forceful latch not set, the guard of the final wait
in _cleanup is false, because the expression tests the is_set bound
method for truthiness instead of calling it, so cleanup returns
immediately; the condition of the inner loop, which does call is_set,
is true there, which is what the guard was meant to check. -/
theorem cleanup_skips_wait_loop :
    cleanup_enters_wait_loop true false = false ∧
    cleanup_wait_condition true false = true ∧
    (∀ conns forceful, cleanup_enters_wait_loop conns forceful = false) := by
  refine ⟨rfl, rfl, ?_⟩
  intro conns forceful
  simp [cleanup_enters_wait_loop, cleanup_guard, py_truthy]

end Hive
